import Mathlib

/-!
Formal model of the technology detector, fact scorers and recommendation
engine of `src/main.py` (class `CompleteWebScraper`).

Conventions of the embedding:
* Python `re.search(p, t, re.IGNORECASE)` truthiness is abstracted as a
  parameter `search : String → String → Bool`, and
  `re.search(p, t, re.IGNORECASE).group(1)` as
  `searchG : String → String → Option String`.  Universal theorems hold for
  every such matcher; concrete evaluations instantiate them with
  `literalSearchCI` (exact for the metacharacter-free patterns exercised) or
  with a pointwise table that records the behaviour of the Python regexes on
  the concrete inputs used.
* Python dicts are association lists `List (String × String)`; insertion
  order is list order, `in` is key membership, `d[k]` is `List.lookup`.
* Python `int(x)` on a non-negative float ratio is the floor of the exact
  rational value; ratios are computed in `ℚ` and floored with `Int.floor`.
* A `ZeroDivisionError` is modelled by returning `none`.
-/

/-- Mirror of the `TechSignature` dataclass (src/main.py line 50).
`version_patterns = None` is modelled by the empty list. -/
structure TechSignature where
  name : String
  category : String
  patterns : List String
  confidence_indicators : List String
  version_patterns : List String := []
deriving Repr, DecidableEq

/-- JavaScript-global snapshot handed to the detector (`js_data`):
the `frameworks` and `libraries` dicts produced by `page.evaluate`. -/
structure JSData where
  frameworks : List (String × String) := []
  libraries : List (String × String) := []
deriving Repr, DecidableEq

/-- One entry of the dict built by `_detect_technologies`
(src/main.py lines 717-722). -/
structure Detection where
  category : String
  confidence : ℕ
  version : Option String
  evidence : List String
deriving Repr, DecidableEq

/-- Catalog returned by `_load_tech_signatures` (src/main.py lines 94-279),
transcribed signature by signature in source order. -/
def tech_signatures : List TechSignature :=
  [ { name := "WordPress", category := "cms",
      patterns := ["/wp-content/", "/wp-includes/", "/wp-admin/", "wp-json", "wordpress"],
      confidence_indicators := ["generator.*wordpress", "wp-content", "wp-includes", "rest_route"],
      version_patterns := ["WordPress (\\d+\\.\\d+(?:\\.\\d+)?)"] },
    { name := "Drupal", category := "cms",
      patterns := ["/sites/default/", "/modules/", "/themes/", "drupal", "Drupal.settings"],
      confidence_indicators := ["generator.*drupal", "sites/default", "Drupal.settings"],
      version_patterns := ["Drupal (\\d+\\.\\d+(?:\\.\\d+)?)"] },
    { name := "Joomla", category := "cms",
      patterns := ["/components/", "/modules/", "/templates/", "joomla", "option=com_"],
      confidence_indicators := ["generator.*joomla", "option=com_", "components/"],
      version_patterns := ["Joomla! (\\d+\\.\\d+(?:\\.\\d+)?)"] },
    { name := "Shopify", category := "cms",
      patterns := ["shopify", "myshopify.com", "cdn.shopify.com", "Shopify.theme"],
      confidence_indicators := ["Shopify.theme", "shopify-analytics", "myshopify.com"] },
    { name := "Magento", category := "cms",
      patterns := ["magento", "/skin/frontend/", "/js/mage/", "Mage.Cookies"],
      confidence_indicators := ["Mage.Cookies", "skin/frontend", "js/mage"] },
    { name := "WooCommerce", category := "cms",
      patterns := ["woocommerce", "wc-", "wp-content/plugins/woocommerce"],
      confidence_indicators := ["woocommerce", "wc-ajax", "plugins/woocommerce"] },
    { name := "React", category := "framework",
      patterns := ["react", "_react", "React\\.", "__REACT_DEVTOOLS_"],
      confidence_indicators := ["data-reactroot", "__REACT_DEVTOOLS_", "React.", "_react"] },
    { name := "Vue.js", category := "framework",
      patterns := ["vue", "Vue\\.", "__VUE__", "v-"],
      confidence_indicators := ["__VUE__", "Vue.", "data-v-", "vue.js"],
      version_patterns := ["Vue\\.js v(\\d+\\.\\d+\\.\\d+)"] },
    { name := "Angular", category := "framework",
      patterns := ["angular", "ng-", "Angular\\.", "__ng"],
      confidence_indicators := ["ng-version", "ng-app", "angular.js", "_angular"] },
    { name := "Next.js", category := "framework",
      patterns := ["next\\.js", "_next/", "__NEXT_DATA__", "next-route"],
      confidence_indicators := ["__NEXT_DATA__", "_next/", "next-route"] },
    { name := "Nuxt.js", category := "framework",
      patterns := ["nuxt", "_nuxt/", "__NUXT__"],
      confidence_indicators := ["__NUXT__", "_nuxt/", "nuxt.js"] },
    { name := "Bootstrap", category := "css_framework",
      patterns := ["bootstrap", "btn-", "col-", "container-"],
      confidence_indicators := ["bootstrap.css", "bootstrap.min.css", "btn-primary"],
      version_patterns := ["Bootstrap v(\\d+\\.\\d+\\.\\d+)"] },
    { name := "Tailwind CSS", category := "css_framework",
      patterns := ["tailwind", "tw-", "bg-\\w+-\\d+", "text-\\w+-\\d+"],
      confidence_indicators := ["tailwindcss", "bg-blue-500", "text-gray-900"] },
    { name := "Foundation", category := "css_framework",
      patterns := ["foundation", "grid-x", "cell-"],
      confidence_indicators := ["foundation.css", "grid-x", "foundation.js"] },
    { name := "Google Analytics", category := "analytics",
      patterns := ["google-analytics", "gtag\\(", "ga\\(", "GoogleAnalyticsObject",
        "UA-\\d+-\\d+", "G-[A-Z0-9]+"],
      confidence_indicators := ["gtag(", "GoogleAnalyticsObject", "google-analytics.com"] },
    { name := "Google Tag Manager", category := "analytics",
      patterns := ["gtm\\.js", "googletagmanager", "GTM-[A-Z0-9]+", "dataLayer"],
      confidence_indicators := ["googletagmanager.com", "GTM-", "dataLayer"] },
    { name := "Facebook Pixel", category := "analytics",
      patterns := ["fbevents\\.js", "facebook\\.net", "connect\\.facebook\\.net", "fbq\\("],
      confidence_indicators := ["fbevents.js", "connect.facebook.net", "fbq("] },
    { name := "Hotjar", category := "analytics",
      patterns := ["hotjar", "static\\.hotjar\\.com", "hj\\("],
      confidence_indicators := ["static.hotjar.com", "hj(", "hotjar"] },
    { name := "Yoast SEO", category := "seo",
      patterns := ["yoast", "wp-seo", "wpseo"],
      confidence_indicators := ["Yoast SEO", "wp-seo", "wpseo"] },
    { name := "RankMath", category := "seo",
      patterns := ["rank-math", "rankmath"],
      confidence_indicators := ["rank-math", "rankmath"] },
    { name := "All in One SEO", category := "seo",
      patterns := ["aioseop", "all-in-one-seo"],
      confidence_indicators := ["aioseop", "all-in-one-seo"] },
    { name := "jQuery", category := "library",
      patterns := ["jquery", "jQuery", "\\$\\."],
      confidence_indicators := ["jquery.js", "jQuery", "jquery.min.js"],
      version_patterns := ["jQuery v(\\d+\\.\\d+\\.\\d+)"] },
    { name := "Lodash", category := "library",
      patterns := ["lodash", "_\\."],
      confidence_indicators := ["lodash.js", "lodash.min.js"] },
    { name := "D3.js", category := "library",
      patterns := ["d3\\.js", "d3\\.min\\.js", "d3\\."],
      confidence_indicators := ["d3.js", "d3.min.js"] },
    { name := "Cloudflare", category := "cdn",
      patterns := ["cloudflare", "cf-ray", "__cfduid"],
      confidence_indicators := ["cf-ray", "cloudflare", "__cfduid"] },
    { name := "Amazon CloudFront", category := "cdn",
      patterns := ["cloudfront", "amazonaws\\.com"],
      confidence_indicators := ["cloudfront.net", "amazonaws.com"] },
    { name := "WP Rocket", category := "performance",
      patterns := ["wp-rocket", "wpr_"],
      confidence_indicators := ["wp-rocket", "wpr_"] },
    { name := "W3 Total Cache", category := "performance",
      patterns := ["w3tc", "w3-total-cache"],
      confidence_indicators := ["w3tc", "w3-total-cache"] } ]

/-- Python `str.lower()`, applied character by character. -/
def pyLower (s : String) : String :=
  ⟨s.data.map Char.toLower⟩

/-- The `combined_text` built at src/main.py line 678:
lower-cased HTML, a space, and the lower-cased space-joined
`"key: value"` serialization of the header map. -/
def combinedText (html : String) (headers : List (String × String)) : String :=
  pyLower html ++ " " ++
    pyLower (String.intercalate " " (headers.map fun kv => kv.1 ++ ": " ++ kv.2))

/-- Pattern loop of `_detect_technologies` (src/main.py lines 686-689):
each matching pattern adds 25 confidence and one evidence note. -/
def checkPatterns (search : String → String → Bool) (combined : String)
    (pats : List String) : ℕ × List String :=
  pats.foldl
    (fun acc p =>
      if search p combined then (acc.1 + 25, acc.2 ++ ["Pattern: " ++ p]) else acc)
    (0, [])

/-- Indicator loop of `_detect_technologies` (src/main.py lines 692-695):
each matching confidence indicator adds 30 and one evidence note. -/
def checkIndicators (search : String → String → Bool) (combined : String)
    (inds : List String) : ℕ × List String :=
  inds.foldl
    (fun acc p =>
      if search p combined then (acc.1 + 30, acc.2 ++ ["Indicator: " ++ p]) else acc)
    (0, [])

/-- Python truthiness of the `version` variable (a string or `None`):
`None` and the empty string are falsy. -/
def pyTruthyStr : Option String → Bool
  | none => false
  | some s => !s.data.isEmpty

/-- Version loop of `_detect_technologies` (src/main.py lines 709-714):
the first version pattern with a capture-group match wins. -/
def findVersion (searchG : String → String → Option String) (html : String) :
    List String → Option String
  | [] => none
  | p :: rest =>
    match searchG p html with
    | some v => some v
    | none => findVersion searchG html rest

/-- JavaScript-global branch of `_detect_technologies`
(src/main.py lines 698-705): `frameworks` is checked first, `libraries`
only in the `elif`, so the 40-point bonus is applied at most once. -/
def jsPhase (js : JSData) (name : String) (st : ℕ × List String) :
    ℕ × List String × Option String :=
  match js.frameworks.lookup name with
  | some v => (st.1 + 40, st.2 ++ ["JavaScript global detected"], some v)
  | none =>
    match js.libraries.lookup name with
    | some v => (st.1 + 40, st.2 ++ ["JavaScript global detected"], some v)
    | none => (st.1, st.2, none)

/-- Version-detection branch of `_detect_technologies`
(src/main.py lines 708-714): entered only when `version_patterns` is a
non-empty list and the `version` variable is Python-falsy. -/
def versionPhase (searchG : String → String → Option String) (html : String)
    (vps : List String) (st : ℕ × List String × Option String) :
    ℕ × List String × Option String :=
  if !vps.isEmpty && !pyTruthyStr st.2.2 then
    match findVersion searchG html vps with
    | some v => (st.1, st.2.1 ++ ["Version found: " ++ v], some v)
    | none => st
  else st

/-- Per-signature body of the loop in `_detect_technologies`
(src/main.py lines 680-714): returns the accumulated pre-clamp
confidence, the full evidence list and the detected version. -/
def scoreSignature (search : String → String → Bool)
    (searchG : String → String → Option String)
    (combined html : String) (js : JSData) (sig : TechSignature) :
    ℕ × List String × Option String :=
  let pats := checkPatterns search combined sig.patterns
  let inds := checkIndicators search combined sig.confidence_indicators
  versionPhase searchG html sig.version_patterns
    (jsPhase js sig.name (pats.1 + inds.1, pats.2 ++ inds.2))

/-- Emission step of `_detect_technologies` (src/main.py lines 716-722):
a signature scoring at least 40 yields a Detection with confidence clamped
to 100 and evidence truncated to its first three entries. -/
def emitSignature (search : String → String → Bool)
    (searchG : String → String → Option String)
    (combined html : String) (js : JSData) (sig : TechSignature) :
    Option (String × Detection) :=
  if 40 ≤ (scoreSignature search searchG combined html js sig).1 then
    some (sig.name,
      { category := sig.category,
        confidence := min (scoreSignature search searchG combined html js sig).1 100,
        version := (scoreSignature search searchG combined html js sig).2.2,
        evidence := (scoreSignature search searchG combined html js sig).2.1.take 3 })
  else none

/-- Detection loop over an arbitrary signature list: the dict built by
`_detect_technologies` is an association list in insertion order. -/
def detectFrom (search : String → String → Bool)
    (searchG : String → String → Option String)
    (html : String) (headers : List (String × String)) (js : JSData)
    (sigs : List TechSignature) : List (String × Detection) :=
  sigs.filterMap (emitSignature search searchG (combinedText html headers) html js)

/-- Mirror of `_detect_technologies` (src/main.py lines 675-724) over the
loaded catalog. -/
def detectTechnologies (search : String → String → Bool)
    (searchG : String → String → Option String)
    (html : String) (headers : List (String × String)) (js : JSData) :
    List (String × Detection) :=
  detectFrom search searchG html headers js tech_signatures

/-- Case-insensitive literal substring test on character lists. -/
def occursIn (pat : List Char) : List Char → Bool
  | [] => pat.isEmpty
  | c :: rest => pat.isPrefixOf (c :: rest) || occursIn pat rest

/-- Concrete matcher used to evaluate the detector on specific inputs:
case-insensitive substring search, which agrees with
`re.search(p, t, re.IGNORECASE)` whenever `p` is free of regex
metacharacters (as are all the patterns that the concrete inputs below
exercise; the metacharacter patterns of the catalog match none of those
inputs under either reading). -/
def literalSearchCI (pat text : String) : Bool :=
  occursIn (pat.data.map Char.toLower) (text.data.map Char.toLower)

/-- Version matcher that never captures: models
`re.search(vp, html, re.IGNORECASE)` returning no match, which is the
behaviour of every catalog version pattern on the concrete HTML inputs
below that contain no version string. -/
def noVersionSearch : String → String → Option String := fun _ _ => none

/-- The value the JavaScript-global branch of `_detect_technologies`
sees for a signature name: the `frameworks` dict is consulted first, the
`libraries` dict only in the `elif`. -/
def jsHit (js : JSData) (name : String) : Option String :=
  match js.frameworks.lookup name with
  | some v => some v
  | none => js.libraries.lookup name

/-- Pointwise record of `re.search(vp, html, re.IGNORECASE).group(1)` for
the version patterns of the catalog on the concrete HTML inputs evaluated in
this file: on `"wordpress 6.2"` the WordPress pattern
`WordPress (\d+\.\d+(?:\.\d+)?)` matches case-insensitively with first
group `"6.2"`, and no other catalog version pattern matches any of the
concrete inputs used here. -/
def versionTable : String → String → Option String := fun p h =>
  if p = "WordPress (\\d+\\.\\d+(?:\\.\\d+)?)" && h = "wordpress 6.2" then some "6.2"
  else none

/-- Inputs of `_calculate_seo_score` (src/main.py lines 956-1004): the
fields of the `seo_data` dict that the scorer reads. -/
structure SEOData where
  title_is_optimal_length : Bool
  title : String
  meta_is_optimal_length : Bool
  meta_exists : Bool
  proper_h1_usage : Bool
  h1_count : ℕ
  total_images : ℕ
  images_with_alt : ℕ
  is_sufficient_content : Bool
  has_json_ld : Bool
  has_microdata : Bool
  has_opengraph : Bool
  is_indexable : Bool
  canonical_exists : Bool
deriving Repr, DecidableEq

/-- Title points of `_calculate_seo_score` (src/main.py lines 961-964):
`title` is Python-truthy exactly when non-empty. -/
def seoTitlePoints (d : SEOData) : ℤ :=
  if d.title_is_optimal_length then 20 else if d.title ≠ "" then 10 else 0

/-- Meta-description points (src/main.py lines 967-970). -/
def seoMetaPoints (d : SEOData) : ℤ :=
  if d.meta_is_optimal_length then 15 else if d.meta_exists then 8 else 0

/-- H1 points (src/main.py lines 973-976). -/
def seoH1Points (d : SEOData) : ℤ :=
  if d.proper_h1_usage then 15 else if 0 < d.h1_count then 8 else 0

/-- Image-alt points (src/main.py lines 979-982): Python
`int(alt_ratio * 10)` truncates the non-negative float ratio, i.e. floors
the exact rational value. -/
def seoAltPoints (d : SEOData) : ℤ :=
  if 0 < d.total_images then
    ⌊(d.images_with_alt : ℚ) / (d.total_images : ℚ) * 10⌋
  else 0

/-- Content-length points (src/main.py lines 985-986). -/
def seoContentPoints (d : SEOData) : ℤ :=
  if d.is_sufficient_content then 10 else 0

/-- Structured-data points (src/main.py lines 989-994). -/
def seoStructuredPoints (d : SEOData) : ℤ :=
  (if d.has_json_ld then 8 else 0) + (if d.has_microdata then 4 else 0) +
    (if d.has_opengraph then 3 else 0)

/-- Robots-meta points (src/main.py lines 997-998). -/
def seoRobotsPoints (d : SEOData) : ℤ :=
  if d.is_indexable then 5 else 0

/-- Canonical-URL points (src/main.py lines 1001-1002). -/
def seoCanonicalPoints (d : SEOData) : ℤ :=
  if d.canonical_exists then 10 else 0

/-- Mirror of `_calculate_seo_score` (src/main.py lines 956-1004). -/
def seoScore (d : SEOData) : ℤ :=
  min (seoTitlePoints d + seoMetaPoints d + seoH1Points d + seoAltPoints d +
    seoContentPoints d + seoStructuredPoints d + seoRobotsPoints d +
    seoCanonicalPoints d) 100

/-- Inputs of `_calculate_accessibility_score` (src/main.py lines
1465-1509), as extracted by `_analyze_accessibility`. -/
structure AccessibilityData where
  total_images : ℕ
  images_with_alt : ℕ
  images_without_alt : ℕ
  total_links : ℕ
  links_with_text : ℕ
  proper_h1_usage : Bool
  h1_count : ℕ
  html_has_lang : Bool
  elements_with_aria_label : ℕ
  elements_with_role : ℕ
  forms_with_labels : ℕ
  total_forms : ℕ
deriving Repr, DecidableEq

/-- Alt-text points (src/main.py lines 1470-1475): 25 flat when there are
no images. -/
def accImagePoints (d : AccessibilityData) : ℤ :=
  if 0 < d.total_images then
    ⌊(d.images_with_alt : ℚ) / (d.total_images : ℚ) * 25⌋
  else 25

/-- Link-text points (src/main.py lines 1478-1481): no flat fallback, the
contribution is simply skipped when there are no links. -/
def accLinkPoints (d : AccessibilityData) : ℤ :=
  if 0 < d.total_links then
    ⌊(d.links_with_text : ℚ) / (d.total_links : ℚ) * 20⌋
  else 0

/-- Heading points (src/main.py lines 1484-1487). -/
def accHeadingPoints (d : AccessibilityData) : ℤ :=
  if d.proper_h1_usage then 20 else if 0 < d.h1_count then 10 else 0

/-- Language-declaration points (src/main.py lines 1490-1491). -/
def accLangPoints (d : AccessibilityData) : ℤ :=
  if d.html_has_lang then 15 else 0

/-- ARIA points (src/main.py lines 1494-1497). -/
def accAriaPoints (d : AccessibilityData) : ℤ :=
  (if 0 < d.elements_with_aria_label then 5 else 0) +
    (if 0 < d.elements_with_role then 5 else 0)

/-- Form-label points (src/main.py lines 1500-1507): 10 flat when there
are no forms. -/
def accFormPoints (d : AccessibilityData) : ℤ :=
  if 0 < d.total_forms then
    if d.forms_with_labels = d.total_forms then 10
    else if 0 < d.forms_with_labels then 5 else 0
  else 10

/-- Mirror of `_calculate_accessibility_score`
(src/main.py lines 1465-1509). -/
def accessibilityScore (d : AccessibilityData) : ℤ :=
  min (accImagePoints d + accLinkPoints d + accHeadingPoints d +
    accLangPoints d + accAriaPoints d + accFormPoints d) 100

/-- Inputs of `_calculate_performance_score` (src/main.py lines
1511-1564), as extracted by `_analyze_performance`; `html_size_kb` is the
float `round(html_size / 1024, 2)`, modelled as an exact rational. -/
structure PerformanceData where
  html_size_kb : ℚ
  total_images : ℕ
  lazy_loaded_images : ℕ
  responsive_images : ℕ
  minified_css : ℕ
  minified_js : ℕ
  external_stylesheets : ℕ
  external_scripts : ℕ
  total_requests_estimate : ℕ
deriving Repr, DecidableEq

/-- HTML-size tier points (src/main.py lines 1516-1524). -/
def perfSizePoints (d : PerformanceData) : ℤ :=
  if d.html_size_kb < 100 then 20
  else if d.html_size_kb < 500 then 15
  else if d.html_size_kb < 1000 then 10
  else 5

/-- Image-optimization points (src/main.py lines 1527-1533): 25 flat when
there are no images. -/
def perfImagePoints (d : PerformanceData) : ℤ :=
  if 0 < d.total_images then
    ⌊((d.lazy_loaded_images : ℚ) / (d.total_images : ℚ) +
        (d.responsive_images : ℚ) / (d.total_images : ℚ)) / 2 * 25⌋
  else 25

/-- Minification points (src/main.py lines 1536-1551): each resource type
contributes a float in [0,10] (10 flat when that type has no external
resources); the sum of the two floats is truncated once. -/
def perfMinifyPoints (d : PerformanceData) : ℤ :=
  ⌊(if 0 < d.external_stylesheets then
      (d.minified_css : ℚ) / (d.external_stylesheets : ℚ) * 10
    else 10) +
    (if 0 < d.external_scripts then
      (d.minified_js : ℚ) / (d.external_scripts : ℚ) * 10
    else 10)⌋

/-- Request-count tier points (src/main.py lines 1554-1562). -/
def perfRequestPoints (d : PerformanceData) : ℤ :=
  if d.total_requests_estimate < 50 then 35
  else if d.total_requests_estimate < 100 then 25
  else if d.total_requests_estimate < 150 then 15
  else 5

/-- Mirror of `_calculate_performance_score`
(src/main.py lines 1511-1564). -/
def performanceScore (d : PerformanceData) : ℤ :=
  min (perfSizePoints d + perfImagePoints d + perfMinifyPoints d +
    perfRequestPoints d) 100

/-- Inputs of `_calculate_mobile_score` (src/main.py lines 1566-1588). -/
structure MobileData where
  viewport_is_responsive : Bool
  viewport_exists : Bool
  touch_icons : ℕ
  responsive_images : ℕ
  flexible_layouts : ℕ
deriving Repr, DecidableEq

/-- Mirror of `_calculate_mobile_score` (src/main.py lines 1566-1588). -/
def mobileScore (d : MobileData) : ℤ :=
  min ((if d.viewport_is_responsive then 40
        else if d.viewport_exists then 20 else 0) +
    (if 0 < d.touch_icons then 20 else 0) +
    (if 0 < d.responsive_images then 20 else 0) +
    (if 0 < d.flexible_layouts then 20 else 0)) 100

/-- Inputs of `_calculate_security_score` (src/main.py lines 1590-1615):
`security_headers` is the dict of tracked header names to presence
booleans, kept as an association list. -/
structure SecurityData where
  https_usage : Bool
  security_headers : List (String × Bool)
  http_resources : ℕ
  forms_with_https_action : ℕ
  total_forms : ℕ
deriving Repr, DecidableEq

/-- The `header_count` of src/main.py line 1600: number of tracked
security headers that are present. -/
def securityHeaderCount (d : SecurityData) : ℕ :=
  (d.security_headers.filter fun kv => kv.2).length

/-- HTTPS points (src/main.py lines 1595-1596). -/
def securityHttpsPoints (d : SecurityData) : ℤ :=
  if d.https_usage then 30 else 0

/-- Mixed-content points (src/main.py lines 1604-1605). -/
def securityMixedPoints (d : SecurityData) : ℤ :=
  if d.http_resources = 0 then 20 else 0

/-- Form-security points (src/main.py lines 1608-1613): 10 flat when
there are no forms. -/
def securityFormPoints (d : SecurityData) : ℤ :=
  if d.total_forms = 0 then 10
  else ⌊(d.forms_with_https_action : ℚ) / (d.total_forms : ℚ) * 10⌋

/-- Mirror of `_calculate_security_score` (src/main.py lines 1590-1615).
Line 1601 divides by `len(security_headers)` with no guard, so an empty
tracked-header dict raises `ZeroDivisionError`, modelled as `none`. -/
def securityScore (d : SecurityData) : Option ℤ :=
  if d.security_headers.length = 0 then none
  else
    some (min (securityHttpsPoints d +
      ⌊(securityHeaderCount d : ℚ) / (d.security_headers.length : ℚ) * 40⌋ +
      securityMixedPoints d + securityFormPoints d) 100)

/-- Inputs of `_calculate_content_score` (src/main.py lines 1617-1670);
`text_density` is a float ratio modelled as an exact rational. -/
structure ContentData where
  word_count : ℕ
  proper_h1_usage : Bool
  total_headings : ℕ
  images : ℕ
  videos : ℕ
  total_lists : ℕ
  total_tables : ℕ
  text_density : ℚ
  reading_time : ℕ
deriving Repr, DecidableEq

/-- Word-count tier points (src/main.py lines 1622-1632). -/
def contentWordPoints (d : ContentData) : ℤ :=
  if 1000 ≤ d.word_count then 25
  else if 500 ≤ d.word_count then 20
  else if 300 ≤ d.word_count then 15
  else if 100 ≤ d.word_count then 10
  else 5

/-- Heading points (src/main.py lines 1635-1638). -/
def contentHeadingPoints (d : ContentData) : ℤ :=
  (if d.proper_h1_usage then 10 else 0) +
    (if 3 < d.total_headings then 10 else 0)

/-- Diversity points (src/main.py lines 1641-1651), capped at 25. -/
def contentDiversityPoints (d : ContentData) : ℤ :=
  min ((if 0 < d.images then 8 else 0) + (if 0 < d.videos then 8 else 0) +
    (if 0 < d.total_lists then 5 else 0) +
    (if 0 < d.total_tables then 4 else 0)) 25

/-- Text-density tier points (src/main.py lines 1654-1659). -/
def contentDensityPoints (d : ContentData) : ℤ :=
  if 1/10 < d.text_density then 15
  else if 1/20 < d.text_density then 10
  else 5

/-- Reading-time points (src/main.py lines 1662-1668). -/
def contentReadingPoints (d : ContentData) : ℤ :=
  if 2 ≤ d.reading_time ∧ d.reading_time ≤ 10 then 15
  else if 1 ≤ d.reading_time ∧ d.reading_time ≤ 15 then 10
  else 5

/-- Mirror of `_calculate_content_score` (src/main.py lines 1617-1670). -/
def contentScore (d : ContentData) : ℤ :=
  min (contentWordPoints d + contentHeadingPoints d +
    contentDiversityPoints d + contentDensityPoints d +
    contentReadingPoints d) 100

/-- Counts that `_analyze_security` (src/main.py lines 1316-1336) reads
off the parsed page: the number of `img`/`script`/`link` elements whose
`src`/`href` starts with `http://`, and the form counts. -/
structure PageResources where
  http_resources : ℕ
  forms_with_https_action : ℕ
  total_forms : ℕ
deriving Repr, DecidableEq

/-- Python `key in headers` on the response-header dict. -/
def headerContains (headers : List (String × String)) (k : String) : Bool :=
  (headers.map Prod.fst).contains k

/-- Mirror of `_analyze_security` (src/main.py lines 1316-1336): note
that `https_usage` is the literal constant `True` (line 1319, commented
`Would be determined from URL`), independent of every input. -/
def analyzeSecurity (soup : PageResources) (headers : List (String × String)) :
    SecurityData :=
  { https_usage := true,
    security_headers :=
      [("strict_transport_security", headerContains headers "strict-transport-security"),
       ("content_security_policy", headerContains headers "content-security-policy"),
       ("x_frame_options", headerContains headers "x-frame-options"),
       ("x_content_type_options", headerContains headers "x-content-type-options")],
    http_resources := soup.http_resources,
    forms_with_https_action := soup.forms_with_https_action,
    total_forms := soup.total_forms }

/-- The slice of the `analysis` dict that `_generate_recommendations`
(src/main.py lines 1672-1722) reads. -/
structure Analysis where
  seo : SEOData
  performance : PerformanceData
  accessibility : AccessibilityData
  mobile : MobileData
  security : SecurityData
  has_structured_data : Bool
deriving Repr, DecidableEq

/-- Mirror of `_generate_recommendations` (src/main.py lines 1672-1722):
each conditional `recommendations.append(msg)` contributes its singleton
`[msg]` exactly when its condition holds, in source order, and the final
return is `recommendations[:10]`. -/
def generateRecommendations (a : Analysis) : List String :=
  ((if !a.seo.title_is_optimal_length then
      ["Optimize title length to 30-60 characters for better SEO"] else []) ++
   (if !a.seo.meta_is_optimal_length then
      ["Add or optimize meta description (120-160 characters)"] else []) ++
   (if !a.seo.proper_h1_usage then
      ["Use exactly one H1 tag per page for better SEO structure"] else []) ++
   (if 500 < a.performance.html_size_kb then
      ["Consider reducing HTML size for better loading performance"] else []) ++
   (if a.performance.lazy_loaded_images = 0 ∧ 5 < a.performance.total_images then
      ["Implement lazy loading for images to improve page speed"] else []) ++
   (if 0 < a.accessibility.images_without_alt then
      ["Add alt text to " ++ toString a.accessibility.images_without_alt ++
        " images for accessibility"] else []) ++
   (if !a.accessibility.html_has_lang then
      ["Add lang attribute to HTML element for accessibility"] else []) ++
   (if !a.mobile.viewport_is_responsive then
      ["Add responsive viewport meta tag for mobile optimization"] else []) ++
   (if !a.security.https_usage then
      ["Implement HTTPS for security and SEO benefits"] else []) ++
   (if !((a.security.security_headers.filter fun kv => !kv.2).map Prod.fst).isEmpty then
      ["Add security headers: " ++ String.intercalate ", "
        ((a.security.security_headers.filter fun kv => !kv.2).map Prod.fst)] else []) ++
   (if !a.has_structured_data then
      ["Add structured data (JSON-LD) to improve search engine understanding"]
    else [])).take 10

/-- Ordered rule table of `_generate_recommendations`: for each rule, its
trigger condition on the analysis and the message it appends, in source
order. -/
def recommendationTable (a : Analysis) : List (Bool × String) :=
  [ (!a.seo.title_is_optimal_length,
      "Optimize title length to 30-60 characters for better SEO"),
    (!a.seo.meta_is_optimal_length,
      "Add or optimize meta description (120-160 characters)"),
    (!a.seo.proper_h1_usage,
      "Use exactly one H1 tag per page for better SEO structure"),
    (decide (500 < a.performance.html_size_kb),
      "Consider reducing HTML size for better loading performance"),
    (decide (a.performance.lazy_loaded_images = 0 ∧ 5 < a.performance.total_images),
      "Implement lazy loading for images to improve page speed"),
    (decide (0 < a.accessibility.images_without_alt),
      "Add alt text to " ++ toString a.accessibility.images_without_alt ++
        " images for accessibility"),
    (!a.accessibility.html_has_lang,
      "Add lang attribute to HTML element for accessibility"),
    (!a.mobile.viewport_is_responsive,
      "Add responsive viewport meta tag for mobile optimization"),
    (!a.security.https_usage,
      "Implement HTTPS for security and SEO benefits"),
    (!((a.security.security_headers.filter fun kv => !kv.2).map Prod.fst).isEmpty,
      "Add security headers: " ++ String.intercalate ", "
        ((a.security.security_headers.filter fun kv => !kv.2).map Prod.fst)),
    (!a.has_structured_data,
      "Add structured data (JSON-LD) to improve search engine understanding") ]

/-- Spec-side reading of §4.4: the messages of the triggered rules, taken
in the fixed documented order, before truncation. -/
def specTriggeredMessages (a : Analysis) : List String :=
  ((recommendationTable a).filter fun bm => bm.1).map Prod.snd

/-- Concrete security facts of Example 5 of the spec: six tracked
headers of which three are present, HTTPS on, no mixed content and no
forms. -/
def securityExampleData : SecurityData :=
  { https_usage := true,
    security_headers :=
      [("strict_transport_security", true), ("content_security_policy", true),
       ("x_content_type_options", true), ("x_frame_options", false),
       ("referrer_policy", false), ("permissions_policy", false)],
    http_resources := 0,
    forms_with_https_action := 0,
    total_forms := 0 }

/-- Concrete SEO facts with 2 of 3 images carrying alt text and every
other contribution zero. -/
def seoCounterData : SEOData :=
  { title_is_optimal_length := false, title := "",
    meta_is_optimal_length := false, meta_exists := false,
    proper_h1_usage := false, h1_count := 0,
    total_images := 3, images_with_alt := 2,
    is_sufficient_content := false, has_json_ld := false, has_microdata := false,
    has_opengraph := false, is_indexable := false, canonical_exists := false }

/-- Concrete SEO facts with 2 of 4 images carrying alt text. -/
def seoAltWitnessData : SEOData :=
  { title_is_optimal_length := false, title := "",
    meta_is_optimal_length := false, meta_exists := false,
    proper_h1_usage := false, h1_count := 0,
    total_images := 4, images_with_alt := 2,
    is_sufficient_content := false, has_json_ld := false, has_microdata := false,
    has_opengraph := false, is_indexable := false, canonical_exists := false }

/-- Concrete analysis record whose security facts come from
`_analyze_security` on an empty header map. -/
def analysisWitnessData : Analysis :=
  { seo :=
      { title_is_optimal_length := true, title := "t",
        meta_is_optimal_length := true, meta_exists := true,
        proper_h1_usage := true, h1_count := 1, total_images := 0,
        images_with_alt := 0, is_sufficient_content := true, has_json_ld := true,
        has_microdata := false, has_opengraph := false, is_indexable := true,
        canonical_exists := true },
    performance :=
      { html_size_kb := 10, total_images := 0,
        lazy_loaded_images := 0, responsive_images := 0, minified_css := 0,
        minified_js := 0, external_stylesheets := 0, external_scripts := 0,
        total_requests_estimate := 0 },
    accessibility :=
      { total_images := 0, images_with_alt := 0,
        images_without_alt := 0, total_links := 0, links_with_text := 0,
        proper_h1_usage := true, h1_count := 1, html_has_lang := true,
        elements_with_aria_label := 0, elements_with_role := 0,
        forms_with_labels := 0, total_forms := 0 },
    mobile :=
      { viewport_is_responsive := true, viewport_exists := true,
        touch_icons := 0, responsive_images := 0, flexible_layouts := 0 },
    security := analyzeSecurity
      { http_resources := 0, forms_with_https_action := 0, total_forms := 0 } [],
    has_structured_data := true }
section DetectionLemmas

/-- Shared shape of the pattern and indicator loops: folding over the
rule list is the weighted count of matches plus tagged evidence notes. -/
theorem check_fold_eq (w : ℕ) (tag : String) (f : String → Bool) :
    ∀ (pats : List String) (c : ℕ) (ev : List String),
      pats.foldl
        (fun acc p => if f p then (acc.1 + w, acc.2 ++ [tag ++ p]) else acc)
        (c, ev)
      = (c + w * (pats.filter f).length,
         ev ++ (pats.filter f).map fun p => tag ++ p)
  | [], c, ev => by simp
  | p :: rest, c, ev => by
    by_cases h : f p
    · simp only [List.foldl_cons, h, if_pos, List.filter_cons_of_pos,
        List.length_cons, List.map_cons, check_fold_eq w tag f rest]
      refine Prod.ext ?_ ?_
      · simp [Nat.mul_add, Nat.mul_one]; ring
      · simp
    · simp only [List.foldl_cons, h, if_neg, List.filter_cons_of_neg,
        check_fold_eq w tag f rest, Bool.false_eq_true, not_false_iff]

theorem checkPatterns_eq (search : String → String → Bool) (combined : String)
    (pats : List String) :
    checkPatterns search combined pats
      = (25 * (pats.filter fun p => search p combined).length,
         (pats.filter fun p => search p combined).map fun p => "Pattern: " ++ p) := by
  simpa using check_fold_eq 25 "Pattern: " (fun p => search p combined) pats 0 []

theorem checkIndicators_eq (search : String → String → Bool) (combined : String)
    (inds : List String) :
    checkIndicators search combined inds
      = (30 * (inds.filter fun p => search p combined).length,
         (inds.filter fun p => search p combined).map fun p => "Indicator: " ++ p) := by
  simpa using check_fold_eq 30 "Indicator: " (fun p => search p combined) inds 0 []

theorem jsPhase_eq (js : JSData) (name : String) (st : ℕ × List String) :
    jsPhase js name st
      = match jsHit js name with
        | some v => (st.1 + 40, st.2 ++ ["JavaScript global detected"], some v)
        | none => (st.1, st.2, none) := by
  unfold jsPhase jsHit
  cases js.frameworks.lookup name <;> cases js.libraries.lookup name <;> rfl

theorem versionPhase_fst (searchG : String → String → Option String)
    (html : String) (vps : List String) (st : ℕ × List String × Option String) :
    (versionPhase searchG html vps st).1 = st.1 := by
  unfold versionPhase
  split
  · cases findVersion searchG html vps <;> rfl
  · rfl

theorem scoreSignature_fst (search : String → String → Bool)
    (searchG : String → String → Option String) (combined html : String)
    (js : JSData) (sig : TechSignature) :
    (scoreSignature search searchG combined html js sig).1
      = (checkPatterns search combined sig.patterns).1 +
        (checkIndicators search combined sig.confidence_indicators).1 +
        (if (jsHit js sig.name).isSome then 40 else 0) := by
  unfold scoreSignature
  rw [versionPhase_fst, jsPhase_eq]
  cases jsHit js sig.name <;> simp

end DetectionLemmas
section DetectLookup

theorem emitSignature_name {search searchG combined html js sig p}
    (h : emitSignature search searchG combined html js sig = some p) :
    p.1 = sig.name := by
  unfold emitSignature at h
  split at h
  · exact (Option.some_inj.mp h) ▸ rfl
  · exact absurd h (by simp)

theorem emitSignature_eq_some_iff (search : String → String → Bool)
    (searchG : String → String → Option String) (combined html : String)
    (js : JSData) (sig : TechSignature) (p : String × Detection) :
    emitSignature search searchG combined html js sig = some p ↔
      40 ≤ (scoreSignature search searchG combined html js sig).1 ∧
      p = (sig.name,
        { category := sig.category,
          confidence := min (scoreSignature search searchG combined html js sig).1 100,
          version := (scoreSignature search searchG combined html js sig).2.2,
          evidence := (scoreSignature search searchG combined html js sig).2.1.take 3 }) := by
  unfold emitSignature
  split
  · simp_all [eq_comm]
  · simp_all

theorem emitSignature_eq_none_iff (search : String → String → Bool)
    (searchG : String → String → Option String) (combined html : String)
    (js : JSData) (sig : TechSignature) :
    emitSignature search searchG combined html js sig = none ↔
      (scoreSignature search searchG combined html js sig).1 < 40 := by
  unfold emitSignature
  split
  · rename_i h
    simp
    omega
  · rename_i h
    simp
    omega

theorem mem_detectFrom_iff (search : String → String → Bool)
    (searchG : String → String → Option String) (html : String)
    (headers : List (String × String)) (js : JSData)
    (sigs : List TechSignature) (p : String × Detection) :
    p ∈ detectFrom search searchG html headers js sigs ↔
      ∃ sig ∈ sigs,
        emitSignature search searchG (combinedText html headers) html js sig
          = some p := by
  simp [detectFrom, List.mem_filterMap]

theorem lookup_detectFrom_eq_none (search : String → String → Bool)
    (searchG : String → String → Option String) (html : String)
    (headers : List (String × String)) (js : JSData) (n : String) :
    ∀ (sigs : List TechSignature), n ∉ sigs.map TechSignature.name →
      (detectFrom search searchG html headers js sigs).lookup n = none
  | [], _ => rfl
  | sig :: rest, h => by
    have hn : n ≠ sig.name := by simp at h; exact fun he => h.1 he
    have hrest : n ∉ rest.map TechSignature.name := by simp at h ⊢; exact h.2
    have ih := lookup_detectFrom_eq_none search searchG html headers js n rest hrest
    unfold detectFrom
    rw [List.filterMap_cons]
    cases hemit : emitSignature search searchG (combinedText html headers) html js sig with
    | none => exact ih
    | some p =>
      have hp := emitSignature_name hemit
      have hbeq : (n == p.1) = false := beq_eq_false_iff_ne.mpr (hp ▸ hn)
      cases p with
      | mk a b => simp only [List.lookup, hbeq]; exact ih

theorem lookup_detectFrom (search : String → String → Bool)
    (searchG : String → String → Option String) (html : String)
    (headers : List (String × String)) (js : JSData) :
    ∀ (sigs : List TechSignature),
      (sigs.map TechSignature.name).Nodup →
      ∀ sig ∈ sigs,
        (detectFrom search searchG html headers js sigs).lookup sig.name
          = (emitSignature search searchG (combinedText html headers) html js sig).map
              Prod.snd
  | [], _, sig, hs => absurd hs (by simp)
  | s :: rest, hnd, sig, hs => by
    have hcons := List.nodup_cons.mp
      (show (s.name :: rest.map TechSignature.name).Nodup by simpa using hnd)
    have hhead : s.name ∉ rest.map TechSignature.name := hcons.1
    have hnd2 : (rest.map TechSignature.name).Nodup := hcons.2
    unfold detectFrom
    rw [List.filterMap_cons]
    rcases List.mem_cons.mp hs with he | hrest
    · subst he
      cases hemit : emitSignature search searchG (combinedText html headers) html js sig with
      | none =>
        have hnone :=
          lookup_detectFrom_eq_none search searchG html headers js sig.name rest hhead
        unfold detectFrom at hnone
        exact hnone
      | some p =>
        have hp := emitSignature_name hemit
        cases p with
        | mk a b =>
          simp only at hp
          subst hp
          simp [List.lookup]
    · have hne : sig.name ≠ s.name := by
        intro he
        exact hhead (he ▸ (List.mem_map_of_mem TechSignature.name hrest))
      have ih := lookup_detectFrom search searchG html headers js rest hnd2 sig hrest
      cases hemit : emitSignature search searchG (combinedText html headers) html js s with
      | none => exact ih
      | some p =>
        have hp := emitSignature_name hemit
        have hbeq : (sig.name == p.1) = false := beq_eq_false_iff_ne.mpr (hp ▸ hne)
        cases p with
        | mk a b =>
          simp only [List.lookup, hbeq]
          exact ih

theorem tech_signatures_names_nodup :
    (tech_signatures.map TechSignature.name).Nodup := by decide

end DetectLookup
theorem pyTruthyStr_some_of_ne (v : String) (h : v ≠ "") :
    pyTruthyStr (some v) = true := by
  cases v with
  | mk l =>
    cases l with
    | nil => exact absurd rfl h
    | cons c cs => rfl

theorem isEmpty_false_of_ne_nil {α : Type} {l : List α} (h : l ≠ []) :
    l.isEmpty = false := by
  cases l with
  | nil => exact absurd rfl h
  | cons a as => rfl

/-- C1: for every input and catalog signature, a Detection is emitted
exactly when the accumulated pre-clamp confidence reaches 40, the emitted
confidence is the accumulation clamped to 100, and hence every emitted
Detection has confidence in the interval [40, 100]; signatures that stay
below 40 are absent from the output. -/
theorem detect_confidence_threshold_clamp
    (search : String → String → Bool) (searchG : String → String → Option String)
    (html : String) (headers : List (String × String)) (js : JSData) :
    (∀ n d, (n, d) ∈ detectTechnologies search searchG html headers js →
      40 ≤ d.confidence ∧ d.confidence ≤ 100) ∧
    (∀ sig ∈ tech_signatures,
      ((detectTechnologies search searchG html headers js).lookup sig.name
          = some { category := sig.category,
                   confidence := min (scoreSignature search searchG
                     (combinedText html headers) html js sig).1 100,
                   version := (scoreSignature search searchG
                     (combinedText html headers) html js sig).2.2,
                   evidence := (scoreSignature search searchG
                     (combinedText html headers) html js sig).2.1.take 3 }
        ↔ 40 ≤ (scoreSignature search searchG (combinedText html headers)
            html js sig).1) ∧
      ((detectTechnologies search searchG html headers js).lookup sig.name = none
        ↔ (scoreSignature search searchG (combinedText html headers)
            html js sig).1 < 40)) := by
  constructor
  · intro n d hmem
    obtain ⟨sig, hsig, hemit⟩ :=
      (mem_detectFrom_iff search searchG html headers js tech_signatures (n, d)).mp hmem
    obtain ⟨hge, hp⟩ :=
      (emitSignature_eq_some_iff search searchG (combinedText html headers)
        html js sig (n, d)).mp hemit
    have hd := (Prod.mk.injEq n d _ _).mp hp
    rw [hd.2]
    simp only
    omega
  · intro sig hsig
    have hl2 : (detectTechnologies search searchG html headers js).lookup sig.name
        = (emitSignature search searchG (combinedText html headers) html js sig).map
            Prod.snd :=
      lookup_detectFrom search searchG html headers js tech_signatures
        tech_signatures_names_nodup sig hsig
    by_cases hge : 40 ≤ (scoreSignature search searchG (combinedText html headers)
        html js sig).1
    · have he : emitSignature search searchG (combinedText html headers) html js sig
          = some (sig.name,
            { category := sig.category,
              confidence := min (scoreSignature search searchG
                (combinedText html headers) html js sig).1 100,
              version := (scoreSignature search searchG (combinedText html headers)
                html js sig).2.2,
              evidence := (scoreSignature search searchG (combinedText html headers)
                html js sig).2.1.take 3 }) :=
        (emitSignature_eq_some_iff search searchG (combinedText html headers)
          html js sig _).mpr ⟨hge, rfl⟩
      rw [he] at hl2
      refine ⟨⟨fun _ => hge, fun _ => ?_⟩, ?_, ?_⟩
      · exact hl2
      · intro hnone
        rw [hnone] at hl2
        exact absurd hl2 (by simp)
      · intro hlt
        omega
    · have he : emitSignature search searchG (combinedText html headers) html js sig
          = none :=
        (emitSignature_eq_none_iff search searchG (combinedText html headers)
          html js sig).mpr (by omega)
      rw [he] at hl2
      refine ⟨⟨fun hsome => ?_, fun hge2 => absurd hge2 hge⟩,
        fun _ => by omega, fun _ => ?_⟩
      · rw [hsome] at hl2
        exact absurd hl2 (by simp)
      · exact hl2

/-- Witness for C1 at a concrete input: the Drupal signature accumulates
55 (pattern 25 + indicator 30) on the given page, so it is emitted with
confidence 55 ∈ [40, 100]. -/
theorem detect_confidence_threshold_clamp_witness :
    (detectTechnologies literalSearchCI noVersionSearch "drupal sites/default" [] {}).lookup
        "Drupal"
      = some { category := "cms", confidence := 55, version := none,
               evidence := ["Pattern: drupal", "Indicator: sites/default"] } := by
  have h := ((detect_confidence_threshold_clamp literalSearchCI noVersionSearch
      "drupal sites/default" [] {}).2 (tech_signatures.get ⟨1, by decide⟩)
      (by decide)).1.mpr (by decide)
  exact h.trans (by decide)

/-- C2 (amended): each pattern entry that matches contributes exactly +25
(not +20) to the accumulated confidence of the signature together with one
evidence note `"Pattern: <regex>"`; the accumulation is 25 per matching
pattern plus 30 per matching indicator plus 40 for a JavaScript-global
hit. -/
theorem pattern_match_weight (search : String → String → Bool)
    (searchG : String → String → Option String) (combined html : String)
    (js : JSData) (sig : TechSignature) :
    checkPatterns search combined sig.patterns
      = (25 * (sig.patterns.filter fun p => search p combined).length,
         (sig.patterns.filter fun p => search p combined).map
           fun p => "Pattern: " ++ p) ∧
    (scoreSignature search searchG combined html js sig).1
      = 25 * (sig.patterns.filter fun p => search p combined).length +
        30 * (sig.confidence_indicators.filter fun p => search p combined).length +
        (if (jsHit js sig.name).isSome then 40 else 0) := by
  refine ⟨checkPatterns_eq search combined sig.patterns, ?_⟩
  rw [scoreSignature_fst, checkPatterns_eq, checkIndicators_eq]

/-- Counterexample to C2 as stated: on a page matching exactly two
Bootstrap patterns and nothing else, the emitted confidence is 50
(25 per pattern), not the 40 that two +20 contributions would give. -/
theorem pattern_match_weight_counterexample :
    (detectTechnologies literalSearchCI noVersionSearch "bootstrap col-md" [] {}).lookup
        "Bootstrap"
      = some { category := "css_framework", confidence := 50, version := none,
               evidence := ["Pattern: bootstrap", "Pattern: col-"] } ∧
    (50 : ℕ) ≠ 20 + 20 := by
  exact ⟨by decide, by decide⟩

/-- C3 (amended): every emitted Detection carries the first three entries
of the accumulated evidence sequence (not the first five), so its
evidence list has length at most 3. -/
theorem evidence_truncated_to_three (search : String → String → Bool)
    (searchG : String → String → Option String) (html : String)
    (headers : List (String × String)) (js : JSData) :
    ∀ n d, (n, d) ∈ detectTechnologies search searchG html headers js →
      ∃ sig ∈ tech_signatures, n = sig.name ∧
        d.evidence = (scoreSignature search searchG (combinedText html headers)
          html js sig).2.1.take 3 ∧
        d.evidence.length ≤ 3 := by
  intro n d hmem
  obtain ⟨sig, hsig, hemit⟩ :=
    (mem_detectFrom_iff search searchG html headers js tech_signatures (n, d)).mp hmem
  obtain ⟨hge, hp⟩ :=
    (emitSignature_eq_some_iff search searchG (combinedText html headers)
      html js sig (n, d)).mp hemit
  have hnd := (Prod.mk.injEq n d _ _).mp hp
  refine ⟨sig, hsig, hnd.1, ?_, ?_⟩
  · rw [hnd.2]
  · rw [hnd.2]
    exact List.length_take_le 3 _

/-- Witness for C3 at a concrete input: the Bootstrap detection on a page
with five accumulated evidence entries keeps only the first three. -/
theorem evidence_truncated_to_three_witness :
    ∃ sig ∈ tech_signatures, "Bootstrap" = sig.name ∧
      (Detection.mk "css_framework" 100 none
          ["Pattern: bootstrap", "Pattern: btn-", "Pattern: col-"]).evidence
        = (scoreSignature literalSearchCI noVersionSearch
            (combinedText "bootstrap col-md btn-primary container-x" [])
            "bootstrap col-md btn-primary container-x" {} sig).2.1.take 3 ∧
      (Detection.mk "css_framework" 100 none
          ["Pattern: bootstrap", "Pattern: btn-", "Pattern: col-"]).evidence.length ≤ 3 := by
  exact evidence_truncated_to_three literalSearchCI noVersionSearch
    "bootstrap col-md btn-primary container-x" [] {} "Bootstrap"
    (Detection.mk "css_framework" 100 none
      ["Pattern: bootstrap", "Pattern: btn-", "Pattern: col-"])
    (by decide)

/-- Counterexample to C3 as stated: on this page the Bootstrap signature
accumulates five evidence entries, but the emitted Detection keeps only
the first three of them, not the first five. -/
theorem evidence_truncated_to_three_counterexample :
    (detectTechnologies literalSearchCI noVersionSearch
        "bootstrap col-md btn-primary container-x" [] {}).lookup "Bootstrap"
      = some { category := "css_framework", confidence := 100, version := none,
               evidence := ["Pattern: bootstrap", "Pattern: btn-", "Pattern: col-"] } ∧
    (scoreSignature literalSearchCI noVersionSearch
        (combinedText "bootstrap col-md btn-primary container-x" [])
        "bootstrap col-md btn-primary container-x" {}
        (tech_signatures.get ⟨11, by decide⟩)).2.1
      = ["Pattern: bootstrap", "Pattern: btn-", "Pattern: col-", "Pattern: container-",
         "Indicator: btn-primary"] ∧
    (["Pattern: bootstrap", "Pattern: btn-", "Pattern: col-"] : List String)
      ≠ (["Pattern: bootstrap", "Pattern: btn-", "Pattern: col-", "Pattern: container-",
          "Indicator: btn-primary"] : List String).take 5 := by
  exact ⟨by decide, by decide, by decide⟩

/-- C4 (amended): on the example page the WordPress signature matches one
pattern (+25) and two confidence indicators (+30 each), so the emitted
Detection has category "cms" and confidence exactly 85, not 40. -/
theorem wordpress_example_detection :
    (detectTechnologies literalSearchCI noVersionSearch
        "/wp-content/themes/x.css wp-includes" [("server", "nginx")] {}).lookup
        "WordPress"
      = some { category := "cms", confidence := 85, version := none,
               evidence := ["Pattern: /wp-content/", "Indicator: wp-content",
                 "Indicator: wp-includes"] } := by
  decide

/-- Counterexample to C4 as stated: the WordPress Detection on the
example page has confidence 85, not exactly 40. -/
theorem wordpress_example_counterexample :
    ((detectTechnologies literalSearchCI noVersionSearch
        "/wp-content/themes/x.css wp-includes" [("server", "nginx")] {}).lookup
        "WordPress").map Detection.confidence = some 85 ∧
    (85 : ℕ) ≠ 40 := by
  exact ⟨by decide, by decide⟩

/-- C9 (amended): a JavaScript-global hit adds +40 exactly once (the
`frameworks` dict is checked first, `libraries` only in the `elif`), sets
`version` to the mapped value and appends one evidence note; when that
value is a non-empty string the version patterns are never consulted (the
result does not depend on the capture matcher), and when there is no hit
the version patterns are tried in order with the first capture-group
match winning. -/
theorem js_global_priority (search : String → String → Bool)
    (searchG : String → String → Option String) (combined html : String)
    (js : JSData) (sig : TechSignature) :
    (∀ v, jsHit js sig.name = some v → v ≠ "" →
      scoreSignature search searchG combined html js sig
        = ((checkPatterns search combined sig.patterns).1 +
             (checkIndicators search combined sig.confidence_indicators).1 + 40,
           (checkPatterns search combined sig.patterns).2 ++
             (checkIndicators search combined sig.confidence_indicators).2 ++
             ["JavaScript global detected"],
           some v)) ∧
    (jsHit js sig.name = none → sig.version_patterns ≠ [] →
      (scoreSignature search searchG combined html js sig).2.2
        = findVersion searchG html sig.version_patterns) := by
  constructor
  · intro v hv hne
    unfold scoreSignature
    dsimp only
    rw [jsPhase_eq, hv]
    unfold versionPhase
    rw [pyTruthyStr_some_of_ne v hne]
    simp
  · intro hv hvp
    unfold scoreSignature
    dsimp only
    rw [jsPhase_eq, hv]
    unfold versionPhase
    rw [isEmpty_false_of_ne_nil hvp]
    simp only [pyTruthyStr, Bool.not_false, Bool.and_true]
    cases hf : findVersion searchG html sig.version_patterns with
    | none => simp [hf]
    | some v => simp [hf]

/-- Witness for C9 at a concrete input: a React JavaScript global mapped
to "18.2.0" yields exactly +40, the evidence note, and that version. -/
theorem js_global_priority_witness :
    scoreSignature literalSearchCI noVersionSearch "x" "x"
        { frameworks := [("React", "18.2.0")] } (tech_signatures.get ⟨6, by decide⟩)
      = (40, ["JavaScript global detected"], some "18.2.0") := by
  have h := (js_global_priority literalSearchCI noVersionSearch "x" "x"
      { frameworks := [("React", "18.2.0")] } (tech_signatures.get ⟨6, by decide⟩)).1
      "18.2.0" (by decide) (by decide)
  exact h.trans (by decide)

/-- Counterexample to C9 as stated: when the mapped JavaScript-global
value is the empty string (Python-falsy), the version patterns ARE
consulted and overwrite the version, so the emitted version is "6.2"
rather than the mapped value "". -/
theorem js_global_priority_counterexample :
    (detectTechnologies literalSearchCI versionTable "wordpress 6.2" []
        { frameworks := [("WordPress", "")] }).lookup "WordPress"
      = some { category := "cms", confidence := 65, version := some "6.2",
               evidence := ["Pattern: wordpress", "JavaScript global detected",
                 "Version found: 6.2"] } ∧
    (some "6.2" : Option String) ≠ some "" := by
  exact ⟨by decide, by decide⟩
theorem seoScore_bounds (d : SEOData) : 0 ≤ seoScore d ∧ seoScore d ≤ 100 := by
  have h1 : 0 ≤ seoTitlePoints d := by unfold seoTitlePoints; split_ifs <;> norm_num
  have h2 : 0 ≤ seoMetaPoints d := by unfold seoMetaPoints; split_ifs <;> norm_num
  have h3 : 0 ≤ seoH1Points d := by unfold seoH1Points; split_ifs <;> norm_num
  have h4 : 0 ≤ seoAltPoints d := by
    unfold seoAltPoints
    split_ifs
    · exact Int.floor_nonneg.mpr (by positivity)
    · norm_num
  have h5 : 0 ≤ seoContentPoints d := by unfold seoContentPoints; split_ifs <;> norm_num
  have h6 : 0 ≤ seoStructuredPoints d := by
    unfold seoStructuredPoints; split_ifs <;> norm_num
  have h7 : 0 ≤ seoRobotsPoints d := by unfold seoRobotsPoints; split_ifs <;> norm_num
  have h8 : 0 ≤ seoCanonicalPoints d := by
    unfold seoCanonicalPoints; split_ifs <;> norm_num
  unfold seoScore
  constructor
  · exact le_min (by linarith) (by norm_num)
  · exact min_le_right _ _

theorem accessibilityScore_bounds (d : AccessibilityData) :
    0 ≤ accessibilityScore d ∧ accessibilityScore d ≤ 100 := by
  have h1 : 0 ≤ accImagePoints d := by
    unfold accImagePoints
    split_ifs
    · exact Int.floor_nonneg.mpr (by positivity)
    · norm_num
  have h2 : 0 ≤ accLinkPoints d := by
    unfold accLinkPoints
    split_ifs
    · exact Int.floor_nonneg.mpr (by positivity)
    · norm_num
  have h3 : 0 ≤ accHeadingPoints d := by unfold accHeadingPoints; split_ifs <;> norm_num
  have h4 : 0 ≤ accLangPoints d := by unfold accLangPoints; split_ifs <;> norm_num
  have h5 : 0 ≤ accAriaPoints d := by unfold accAriaPoints; split_ifs <;> norm_num
  have h6 : 0 ≤ accFormPoints d := by unfold accFormPoints; split_ifs <;> norm_num
  unfold accessibilityScore
  constructor
  · exact le_min (by linarith) (by norm_num)
  · exact min_le_right _ _

theorem performanceScore_bounds (d : PerformanceData) :
    0 ≤ performanceScore d ∧ performanceScore d ≤ 100 := by
  have h1 : 0 ≤ perfSizePoints d := by unfold perfSizePoints; split_ifs <;> norm_num
  have h2 : 0 ≤ perfImagePoints d := by
    unfold perfImagePoints
    split_ifs
    · exact Int.floor_nonneg.mpr (by positivity)
    · norm_num
  have h3 : 0 ≤ perfMinifyPoints d := by
    unfold perfMinifyPoints
    split_ifs <;> exact Int.floor_nonneg.mpr (by positivity)
  have h4 : 0 ≤ perfRequestPoints d := by
    unfold perfRequestPoints; split_ifs <;> norm_num
  unfold performanceScore
  constructor
  · exact le_min (by linarith) (by norm_num)
  · exact min_le_right _ _

theorem mobileScore_bounds (d : MobileData) :
    0 ≤ mobileScore d ∧ mobileScore d ≤ 100 := by
  unfold mobileScore
  constructor
  · refine le_min ?_ (by norm_num)
    split_ifs <;> norm_num
  · exact min_le_right _ _

theorem contentScore_bounds (d : ContentData) :
    0 ≤ contentScore d ∧ contentScore d ≤ 100 := by
  have h1 : 0 ≤ contentWordPoints d := by unfold contentWordPoints; split_ifs <;> norm_num
  have h2 : 0 ≤ contentHeadingPoints d := by
    unfold contentHeadingPoints; split_ifs <;> norm_num
  have h3 : 0 ≤ contentDiversityPoints d := by
    unfold contentDiversityPoints
    refine le_min ?_ (by norm_num)
    split_ifs <;> norm_num
  have h4 : 0 ≤ contentDensityPoints d := by
    unfold contentDensityPoints; split_ifs <;> norm_num
  have h5 : 0 ≤ contentReadingPoints d := by
    unfold contentReadingPoints; split_ifs <;> norm_num
  unfold contentScore
  constructor
  · exact le_min (by linarith) (by norm_num)
  · exact min_le_right _ _

theorem securityScore_some_bounds (d : SecurityData)
    (h : d.security_headers ≠ []) :
    ∃ v, securityScore d = some v ∧ 0 ≤ v ∧ v ≤ 100 := by
  have hlen : d.security_headers.length ≠ 0 := by
    simpa [List.length_eq_zero] using h
  have h1 : 0 ≤ securityHttpsPoints d := by
    unfold securityHttpsPoints; split_ifs <;> norm_num
  have h2 : 0 ≤ ⌊(securityHeaderCount d : ℚ) / (d.security_headers.length : ℚ) * 40⌋ :=
    Int.floor_nonneg.mpr (by positivity)
  have h3 : 0 ≤ securityMixedPoints d := by
    unfold securityMixedPoints; split_ifs <;> norm_num
  have h4 : 0 ≤ securityFormPoints d := by
    unfold securityFormPoints
    split_ifs
    · norm_num
    · exact Int.floor_nonneg.mpr (by positivity)
  refine ⟨min (securityHttpsPoints d +
      ⌊(securityHeaderCount d : ℚ) / (d.security_headers.length : ℚ) * 40⌋ +
      securityMixedPoints d + securityFormPoints d) 100, ?_, ?_, ?_⟩
  · unfold securityScore
    rw [if_neg hlen]
  · exact le_min (by linarith) (by norm_num)
  · exact min_le_right _ _
theorem ite_append_singleton {α : Type} (c : Prop) [Decidable c]
    (r : List α) (m : α) :
    (if c then r ++ [m] else r) = r ++ (if c then [m] else []) := by
  split <;> simp

theorem ite_singleton_append {α : Type} (c : Prop) [Decidable c]
    (m : α) (l : List α) :
    (if c then [m] else []) ++ l = if c then m :: l else l := by
  split <;> simp

theorem concatIf_eq (tbl : List (Bool × String)) :
    (tbl.filter fun bm => bm.1).map Prod.snd
      = tbl.foldr (fun bm acc => (if bm.1 then [bm.2] else []) ++ acc) [] := by
  induction tbl with
  | nil => rfl
  | cons bm rest ih => cases h : bm.1 <;> simp [h, ih]

theorem genRecs_eq_foldr (a : Analysis) :
    generateRecommendations a
      = ((recommendationTable a).foldr
          (fun bm acc => (if bm.1 then [bm.2] else []) ++ acc) []).take 10 := by
  unfold generateRecommendations recommendationTable
  simp only [List.foldr_cons, List.foldr_nil, decide_eq_true_eq, List.append_nil,
    List.append_assoc]

theorem generateRecommendations_take (a : Analysis) :
    generateRecommendations a = (specTriggeredMessages a).take 10 := by
  rw [genRecs_eq_foldr]
  unfold specTriggeredMessages
  rw [concatIf_eq]

theorem mem_generateRecommendations {a : Analysis} {m : String}
    (h : m ∈ generateRecommendations a) :
    ∃ bm ∈ recommendationTable a, bm.1 = true ∧ bm.2 = m := by
  rw [generateRecommendations_take] at h
  have h2 := List.mem_of_mem_take h
  obtain ⟨bm, hmem, hm⟩ := List.mem_map.mp h2
  exact ⟨bm, (List.mem_filter.mp hmem).1, (List.mem_filter.mp hmem).2, hm⟩

theorem alt_msg_ne_https (s : String) :
    ("Add alt text to " ++ s ++ " images for accessibility") ≠
      "Implement HTTPS for security and SEO benefits" := by
  intro h
  have h0 : ("Add alt text to " ++ s ++ " images for accessibility").data.head?
      = some 'A' := rfl
  rw [h] at h0
  exact absurd h0 (by decide)

theorem headers_msg_ne_https (s : String) :
    ("Add security headers: " ++ s) ≠
      "Implement HTTPS for security and SEO benefits" := by
  intro h
  have h0 : ("Add security headers: " ++ s).data.head? = some 'A' := rfl
  rw [h] at h0
  exact absurd h0 (by decide)
/-- C5 (amended): the SEO, accessibility, performance, mobile and content
scorers are total with values in [0, 100] for arbitrary facts, and so is
the security scorer whenever the tracked security-header map is non-empty
(the extractor always supplies four entries; on an empty map line 1601
divides by zero); the zero-denominator cases resolve through the
documented flat fallbacks. -/
theorem scorers_total_and_bounded :
    (∀ d : SEOData, 0 ≤ seoScore d ∧ seoScore d ≤ 100) ∧
    (∀ d : AccessibilityData, 0 ≤ accessibilityScore d ∧ accessibilityScore d ≤ 100) ∧
    (∀ d : PerformanceData, 0 ≤ performanceScore d ∧ performanceScore d ≤ 100) ∧
    (∀ d : MobileData, 0 ≤ mobileScore d ∧ mobileScore d ≤ 100) ∧
    (∀ d : ContentData, 0 ≤ contentScore d ∧ contentScore d ≤ 100) ∧
    (∀ d : SecurityData, d.security_headers ≠ [] →
      ∃ v, securityScore d = some v ∧ 0 ≤ v ∧ v ≤ 100) ∧
    (∀ d : AccessibilityData, d.total_images = 0 → accImagePoints d = 25) ∧
    (∀ d : AccessibilityData, d.total_forms = 0 → accFormPoints d = 10) ∧
    (∀ d : PerformanceData, d.total_images = 0 → perfImagePoints d = 25) ∧
    (∀ d : PerformanceData, d.external_stylesheets = 0 → d.external_scripts = 0 →
      perfMinifyPoints d = 20) ∧
    (∀ d : SecurityData, d.total_forms = 0 → securityFormPoints d = 10) := by
  refine ⟨seoScore_bounds, accessibilityScore_bounds, performanceScore_bounds,
    mobileScore_bounds, contentScore_bounds, securityScore_some_bounds,
    ?_, ?_, ?_, ?_, ?_⟩
  · intro d h
    simp [accImagePoints, h]
  · intro d h
    simp [accFormPoints, h]
  · intro d h
    simp [perfImagePoints, h]
  · intro d h1 h2
    simp only [perfMinifyPoints, h1, lt_irrefl, if_neg, h2]
    norm_num
  · intro d h
    simp [securityFormPoints, h]

/-- Witness for C5 at concrete degenerate inputs: a one-entry header map
gives a defined security score in range, and zero images give the flat
25-point accessibility contribution. -/
theorem scorers_total_and_bounded_witness :
    (∃ v, securityScore
        { https_usage := true,
          security_headers := [("x_frame_options", true)], http_resources := 0,
          forms_with_https_action := 0, total_forms := 0 } = some v ∧
        0 ≤ v ∧ v ≤ 100) ∧
    accImagePoints
        { total_images := 0, images_with_alt := 0, images_without_alt := 0,
          total_links := 0, links_with_text := 0, proper_h1_usage := false,
          h1_count := 0, html_has_lang := false, elements_with_aria_label := 0,
          elements_with_role := 0, forms_with_labels := 0, total_forms := 0 }
      = 25 := by
  exact ⟨scorers_total_and_bounded.2.2.2.2.2.1 _ (by decide),
    scorers_total_and_bounded.2.2.2.2.2.2.1 _ rfl⟩

/-- Counterexample to C5 as stated: on facts with an empty tracked
security-header map the security scorer divides by zero
(`ZeroDivisionError`, modelled as `none`), so it is not total on
arbitrary PageFacts. -/
theorem scorers_total_counterexample :
    securityScore
        { https_usage := true, security_headers := [],
          http_resources := 0, forms_with_https_action := 0, total_forms := 0 }
      = none := by
  rfl

/-- C6: on Example 5 facts (six tracked headers, three present, HTTPS,
no mixed content, no forms) the security score is exactly
30 + ⌊3/6·40⌋ + 20 + 10 = 80. -/
theorem security_example_score : securityScore securityExampleData = some 80 := by
  unfold securityScore securityExampleData securityHttpsPoints securityMixedPoints
    securityFormPoints securityHeaderCount
  norm_num [List.filter]

/-- C7 (amended): when images exist, the SEO image-alt contribution is
the Python `int` truncation of `imagesWithAlt / totalImages * 10`, which
equals the integer floor division `(imagesWithAlt * 10) / totalImages` —
truncation, not rounding to nearest. -/
theorem seoAltPoints_is_floor (d : SEOData) (h : 0 < d.total_images)
    (hle : d.images_with_alt ≤ d.total_images) :
    seoAltPoints d = ⌊(d.images_with_alt : ℚ) / (d.total_images : ℚ) * 10⌋ ∧
    seoAltPoints d = ((d.images_with_alt * 10 : ℕ) : ℤ) / ((d.total_images : ℕ) : ℤ) := by
  constructor
  · simp [seoAltPoints, h]
  · simp only [seoAltPoints, if_pos h]
    rw [div_mul_eq_mul_div]
    rw [show ((d.images_with_alt : ℚ) * 10) = ((d.images_with_alt * 10 : ℕ) : ℚ) by
      push_cast
      ring]
    exact_mod_cast Rat.floor_natCast_div_natCast (d.images_with_alt * 10) d.total_images

/-- Witness for C7 at a concrete input: 2 of 4 images give ⌊20/4⌋ = 5. -/
theorem seoAltPoints_is_floor_witness :
    seoAltPoints seoAltWitnessData = ((2 * 10 : ℕ) : ℤ) / ((4 : ℕ) : ℤ) := by
  exact (seoAltPoints_is_floor seoAltWitnessData (by decide) (by decide)).2

/-- Counterexample to C7 as stated: with 2 of 3 images carrying alt text
the scorer contributes ⌊20/3⌋ = 6, while round(20/3) = 7. -/
theorem seoAltPoints_round_counterexample :
    seoScore seoCounterData = 6 ∧ seoAltPoints seoCounterData = 6 ∧
    round ((2 : ℚ) / 3 * 10) = 7 ∧ (6 : ℤ) ≠ 7 := by
  have halt : seoAltPoints seoCounterData = 6 := by
    unfold seoAltPoints seoCounterData
    norm_num [Int.floor_eq_iff]
  refine ⟨?_, halt, by norm_num [round_eq, Int.floor_eq_iff], by norm_num⟩
  unfold seoScore seoTitlePoints seoMetaPoints seoH1Points seoContentPoints
    seoStructuredPoints seoRobotsPoints seoCanonicalPoints
  rw [halt]
  norm_num [seoCounterData]

/-- C8: the recommendation list is exactly the triggered rule messages in
the fixed source order truncated to the first ten (no reordering, no
deduplication), its length never exceeds ten, and the computation is
deterministic — identical input yields an identical list. -/
theorem recommendations_ordered_capped (a : Analysis) :
    generateRecommendations a = (specTriggeredMessages a).take 10 ∧
    (generateRecommendations a).length ≤ 10 ∧
    generateRecommendations a = generateRecommendations a := by
  refine ⟨generateRecommendations_take a, ?_, rfl⟩
  rw [generateRecommendations_take a]
  exact List.length_take_le 10 _

/-- C10: `_analyze_security` hardcodes `https_usage = True` for every
page and header map, so the 30-point HTTPS component of the security
score is always awarded and the HTTPS recommendation can never be
emitted for an analysis whose security facts come from the extractor. -/
theorem https_usage_hardcoded (soup : PageResources)
    (headers : List (String × String)) (a : Analysis) :
    (analyzeSecurity soup headers).https_usage = true ∧
    securityHttpsPoints (analyzeSecurity soup headers) = 30 ∧
    (a.security = analyzeSecurity soup headers →
      "Implement HTTPS for security and SEO benefits" ∉ generateRecommendations a) := by
  refine ⟨rfl, rfl, ?_⟩
  intro hsec hmem
  obtain ⟨bm, hbm, hcond, hmsg⟩ := mem_generateRecommendations hmem
  simp only [recommendationTable, List.mem_cons, List.not_mem_nil, or_false] at hbm
  rcases hbm with h|h|h|h|h|h|h|h|h|h|h <;> subst h <;> dsimp only at hcond hmsg
  all_goals first
    | exact absurd hmsg (by decide)
    | exact absurd hmsg (alt_msg_ne_https _)
    | exact absurd hmsg (headers_msg_ne_https _)
    | simp [hsec, analyzeSecurity] at hcond

/-- Witness for C10 at a concrete analysis built from the security facts
of the extractor: the HTTPS recommendation is absent. -/
theorem https_usage_hardcoded_witness :
    "Implement HTTPS for security and SEO benefits" ∉
      generateRecommendations analysisWitnessData := by
  exact (https_usage_hardcoded
    { http_resources := 0, forms_with_https_action := 0, total_forms := 0 } []
    analysisWitnessData).2.2 (by rfl)
